import Mathlib

/-!
Shallow embedding of `src/script.py` (a dynamic-DNS reconciliation daemon
for the mijn.host API) and proofs about its configuration validation
(`load_and_validate_config`), persistence (`cache_ip_in_yaml`), record
update naming (`update_dns_record`) and the main reconciliation loop.

Python strings are modelled as `List Char` (`PyStr`); YAML / Python values
as the inductive `Val`.  String helpers (`strip`, `upper`, `int(...)`)
are modelled over ASCII; Python additionally handles some Unicode
whitespace/case and underscore digit separators, which no configuration
value in the claims exercises.
-/

namespace DDNS

/-- Python `str` values, modelled as lists of characters. -/
abbrev PyStr := List Char

/-- Conversion from a Lean string literal to a `PyStr`. -/
def pys (s : String) : PyStr := s.data

/-- ASCII whitespace as recognised by Python's `str.strip()`. -/
def pyIsSpace (c : Char) : Bool :=
  c = ' ' || c = '\t' || c = '\n' || c = '\x0d' || c = '\x0b' || c = '\x0c'

/-- Python `str.strip()`: drop whitespace from both ends. -/
def pstrip (s : PyStr) : PyStr :=
  (s.dropWhile pyIsSpace).rdropWhile pyIsSpace

/-- ASCII upper-casing of one character, as in Python `str.upper()`. -/
def pyUpperChar (c : Char) : Char :=
  if 'a' ≤ c ∧ c ≤ 'z' then Char.ofNat (c.toNat - 32) else c

/-- Python `str.upper()` (ASCII fragment). -/
def pupper (s : PyStr) : PyStr := s.map pyUpperChar

/-- Decimal digit character for `n < 10`. -/
def digitChar : Nat → Char
  | 0 => '0'
  | 1 => '1'
  | 2 => '2'
  | 3 => '3'
  | 4 => '4'
  | 5 => '5'
  | 6 => '6'
  | 7 => '7'
  | 8 => '8'
  | _ => '9'

/-- Decimal representation of a natural number, most significant digit
first (the digits of Python `str(n)` for `n ≥ 0`). -/
def natRepr (n : Nat) : PyStr :=
  if n < 10 then [digitChar n]
  else natRepr (n / 10) ++ [digitChar (n % 10)]
decreasing_by exact Nat.div_lt_self (by omega) (by omega)

/-- Python `str(n)` for an `int` value `n`. -/
def intRepr (n : Int) : PyStr :=
  if n < 0 then '-' :: natRepr (-n).toNat else natRepr n.toNat

/-- Numeric value of a decimal digit string (assuming all digits). -/
def digitsVal (s : PyStr) : Nat :=
  s.foldl (fun a c => a * 10 + (c.toNat - 48)) 0

/-- `true` iff every character is an ASCII decimal digit. -/
def allDigits (s : PyStr) : Bool := s.all (·.isDigit)

/-- Parse a digit run as Python `int` does for an unsigned body:
fails on an empty string or any non-digit. -/
def digitsToNat (s : PyStr) : Option Nat :=
  if !s.isEmpty && allDigits s then some (digitsVal s) else none

/-- Python `int(s)` on a string: strip whitespace, optional single sign,
then a non-empty digit run.  (Underscore separators are not modelled.) -/
def parsePyInt (s : PyStr) : Option Int :=
  match pstrip s with
  | [] => none
  | c :: rest =>
    if c = '-' then (digitsToNat rest).map (fun m => -(m : Int))
    else if c = '+' then (digitsToNat rest).map (fun m => (m : Int))
    else (digitsToNat (c :: rest)).map (fun m => (m : Int))

/-- YAML / Python values as loaded by `yaml.safe_load`:  `None`, booleans,
integers, strings, lists and string-keyed dicts (YAML mappings in this
configuration all have string keys). -/
inductive Val where
  | vnull : Val
  | vbool : Bool → Val
  | vint : Int → Val
  | vstr : PyStr → Val
  | vlist : List Val → Val
  | vdict : List (String × Val) → Val

namespace Val

/-- Python truthiness: `None`, `False`, `0`, `""`, `[]`, `{}` are falsy. -/
def pyTruthy : Val → Bool
  | vnull => false
  | vbool b => b
  | vint n => n != 0
  | vstr s => !s.isEmpty
  | vlist l => !l.isEmpty
  | vdict l => !l.isEmpty

end Val

/-- First binding of key `k`, or `Val.vnull` when absent — the value of
Python `d.get(k)` (a dict value of `None` and a missing key coincide). -/
def dictGet (kvs : List (String × Val)) (k : String) : Val :=
  match kvs.find? (fun p => p.1 = k) with
  | some p => p.2
  | none => Val.vnull

/-- Python `k in d` for a dict. -/
def dictMem (kvs : List (String × Val)) (k : String) : Bool :=
  (kvs.find? (fun p => p.1 = k)).isSome

/-- Python `d[k] = v`: replace the first binding of `k` in place,
or append a new binding at the end (dict insertion order). -/
def dictSet (kvs : List (String × Val)) (k : String) (v : Val) :
    List (String × Val) :=
  match kvs with
  | [] => [(k, v)]
  | (k', v') :: rest =>
    if k' = k then (k', v) :: rest else (k', v') :: dictSet rest k v

mutual

/-- Python `repr` of a value, as used by `str` inside containers.  String
escaping inside the quotes is not modelled (no claim inspects the printed
form of a container). -/
def pyRepr : Val → PyStr
  | .vnull => pys "None"
  | .vbool true => pys "True"
  | .vbool false => pys "False"
  | .vint n => intRepr n
  | .vstr s => '\'' :: (s ++ ['\''])
  | .vlist xs => '[' :: (pyReprItems xs ++ [']'])
  | .vdict kvs => Char.ofNat 123 :: (pyReprPairs kvs ++ [Char.ofNat 125])

/-- Comma-separated `repr`s of list elements. -/
def pyReprItems : List Val → PyStr
  | [] => []
  | [v] => pyRepr v
  | v :: v' :: vs => pyRepr v ++ (',' :: ' ' :: pyReprItems (v' :: vs))

/-- Comma-separated `'key': repr(value)` pairs of a dict. -/
def pyReprPairs : List (String × Val) → PyStr
  | [] => []
  | [(k, v)] => ('\'' :: (k.data ++ ['\''])) ++ (':' :: ' ' :: pyRepr v)
  | (k, v) :: kv :: kvs =>
    ('\'' :: (k.data ++ ['\''])) ++ (':' :: ' ' :: pyRepr v) ++
      (',' :: ' ' :: pyReprPairs (kv :: kvs))

end

/-- Python `str(v)`: the string itself for a string, `repr` otherwise. -/
def pyStrVal : Val → PyStr
  | .vstr s => s
  | v => pyRepr v

/-- Python `int(v)` as a partial function: identity on ints, `True`/`False`
to 1/0, digit parsing on strings; `None`, lists and dicts raise
(`TypeError`), modelled as `none` (the script catches
`(ValueError, TypeError)`). -/
def pyToInt : Val → Option Int
  | .vint n => some n
  | .vbool b => some (if b then 1 else 0)
  | .vstr s => parsePyInt s
  | _ => none

/-- `true` iff the value is a dict (`isinstance(v, dict)`). -/
def isVDict : Val → Bool
  | .vdict _ => true
  | _ => false

/-- `true` iff the value is a list (`isinstance(v, list)`). -/
def isVList : Val → Bool
  | .vlist _ => true
  | _ => false

/-- A record as produced by validation (`script.py` line 161):
`{"name": record_name, "type": record_type, "ttl": record_ttl}`. -/
structure ValidRecord where
  name : PyStr
  type : PyStr
  ttl : Int
deriving Repr, DecidableEq

/-- A domain as produced by validation (`script.py` line 164):
`{"domain_name": ..., "records": [...]}` with at least one valid record. -/
structure ValidDomain where
  domain_name : PyStr
  records : List ValidRecord
deriving Repr, DecidableEq

/-- Per-record validation, `script.py` lines 137-161: the entry must be a
dict with keys `name`, `type`, `ttl`; the stripped name must be non-empty;
the upper-cased stripped type must be `A` or `AAAA`; `int(str(ttl))` must
succeed and be positive. -/
def validateRecord (rv : Val) : Option ValidRecord :=
  match rv with
  | .vdict kvs =>
    if dictMem kvs "name" && dictMem kvs "type" && dictMem kvs "ttl" then
      let record_name := pstrip (pyStrVal (dictGet kvs "name"))
      let record_type := pstrip (pupper (pyStrVal (dictGet kvs "type")))
      let record_ttl_str := pstrip (pyStrVal (dictGet kvs "ttl"))
      if record_name.isEmpty then none
      else if !(record_type == pys "A" || record_type == pys "AAAA") then none
      else
        match parsePyInt record_ttl_str with
        | none => none
        | some record_ttl =>
          if record_ttl ≤ 0 then none
          else some ⟨record_name, record_type, record_ttl⟩
    else none
  | _ => none

/-- Per-domain validation, `script.py` lines 123-166: the entry must be a
dict with keys `domain_name` and `records`; `records` must be a non-empty
list; the stripped domain name must be non-empty; the record filter must
leave at least one valid record. -/
def validateDomain (dv : Val) : Option ValidDomain :=
  match dv with
  | .vdict kvs =>
    if !(dictMem kvs "domain_name" && dictMem kvs "records") then none
    else
      match dictGet kvs "records" with
      | .vlist rs =>
        if rs.isEmpty then none
        else
          let current_domain_name := pstrip (pyStrVal (dictGet kvs "domain_name"))
          if current_domain_name.isEmpty then none
          else
            let valid_records_for_domain := rs.filterMap validateRecord
            if valid_records_for_domain.isEmpty then none
            else some ⟨current_domain_name, valid_records_for_domain⟩
      | _ => none
  | _ => none

/-- The domain filter of `load_and_validate_config` (lines 122-166). -/
def validateDomains (ds : List Val) : List ValidDomain :=
  ds.filterMap validateDomain

/-- The `Val` form of a validated record, as stored back into
`valid_records_for_domain` (line 161). -/
def recordToVal (r : ValidRecord) : Val :=
  .vdict [("name", .vstr r.name), ("type", .vstr r.type), ("ttl", .vint r.ttl)]

/-- The `Val` form of a validated domain (line 164). -/
def domainToVal (d : ValidDomain) : Val :=
  .vdict [("domain_name", .vstr d.domain_name),
          ("records", .vlist (d.records.map recordToVal))]

/-- `DEFAULT_CHECK_INTERVAL_SECONDS` (line 8). -/
def DEFAULT_CHECK_INTERVAL_SECONDS : Int := 300

/-- `DEFAULT_PUBLIC_IP_SERVICE_URL` (line 9). -/
def DEFAULT_PUBLIC_IP_SERVICE_URL : PyStr := pys "https://api.ipify.org?format=json"

/-- Effective `CHECK_INTERVAL_SECONDS` from the raw
`global_settings.check_interval_seconds` value (lines 101-108): `None` or
missing means the default; otherwise `int(v)`, falling back to the default
when conversion fails or the result is non-positive. -/
def normInterval (v : Val) : Int :=
  match v with
  | .vnull => DEFAULT_CHECK_INTERVAL_SECONDS
  | w =>
    match pyToInt w with
    | some n => if n ≤ 0 then DEFAULT_CHECK_INTERVAL_SECONDS else n
    | none => DEFAULT_CHECK_INTERVAL_SECONDS

/-- Effective `PUBLIC_IP_SERVICE_URL` from the raw
`global_settings.public_ip_service_url` value (lines 110-113): `None` or
missing means the default; otherwise `str(v)`, falling back to the default
unless it starts with `http://` or `https://`. -/
def normUrl (v : Val) : PyStr :=
  match v with
  | .vnull => DEFAULT_PUBLIC_IP_SERVICE_URL
  | w =>
    let s := pyStrVal w
    if (pys "http://").isPrefixOf s || (pys "https://").isPrefixOf s then s
    else DEFAULT_PUBLIC_IP_SERVICE_URL

/-- The empty structure `{'global_settings': {}, 'domains': []}` used when
the file is empty or unreadable (lines 41, 67, 71, ...). -/
def emptyDoc : Val := .vdict [("global_settings", .vdict []), ("domains", .vlist [])]

/-- Outcome of reading and parsing the configuration file in
`load_and_validate_config`.  `parseError` is `yaml.YAMLError` raised while
parsing an existing file (line 82); `parsed v` is a successful
`yaml.safe_load` (with `v = vnull` for an empty file).  The
file-not-found / template-seeding branch (lines 44-80) always ends in some
parsed value or the empty structure and is not separately modelled; no
claim depends on it. -/
inductive LoadInput where
  | parseError : LoadInput
  | parsed : Val → LoadInput

/-- The values `load_and_validate_config` leaves behind on success: the
(possibly normalized) `parsed_config_data`, the raw
`global_settings.last_known_ip` value, the effective interval and URL
globals, and the returned `valid_domain_configs`. -/
structure LoadResult where
  doc : Val
  lastIp : Val
  interval : Int
  url : PyStr
  domains : List ValidDomain

/-- Result of `load_and_validate_config`: `fatal` is the `return None, None`
sentinel; `crash` is an uncaught exception (a truthy non-dict top-level
document makes the `'global_settings' not in parsed_config_data` /
item-assignment lines raise outside any handler). -/
inductive LoadOutcome where
  | fatal : LoadOutcome
  | crash : LoadOutcome
  | ok : LoadResult → LoadOutcome

/-- `load_and_validate_config` (lines 24-171) on an already-read document.
`apiKey` is whether `MIJNHOST_API_KEY` is set in the environment. -/
def loadAndValidateConfig (apiKey : Bool) (inp : LoadInput) : LoadOutcome :=
  if !apiKey then .fatal
  else
    match inp with
    | .parseError => .fatal
    | .parsed v =>
      let doc := if v.pyTruthy then v else emptyDoc
      match doc with
      | .vdict kvs0 =>
        let kvs1 := if isVDict (dictGet kvs0 "global_settings") then kvs0
                    else dictSet kvs0 "global_settings" (.vdict [])
        let gs := match dictGet kvs1 "global_settings" with
                  | .vdict g => g
                  | _ => []
        let lastIp := dictGet gs "last_known_ip"
        let interval := normInterval (dictGet gs "check_interval_seconds")
        let url := normUrl (dictGet gs "public_ip_service_url")
        let kvs2 := if isVList (dictGet kvs1 "domains") then kvs1
                    else dictSet kvs1 "domains" (.vlist [])
        let doms := match dictGet kvs2 "domains" with
                    | .vlist l => l
                    | _ => []
        .ok ⟨.vdict kvs2, lastIp, interval, url, validateDomains doms⟩
      | _ => .crash

/-- `cache_ip_in_yaml` (lines 173-205): overwrite the three
`global_settings` fields, make sure `domains` is a list, and rewrite the
file (file I/O failures are swallowed, so only the in-memory document
matters).  A truthy non-dict document would raise in Python; the loop
never produces one (`loadAndValidateConfig` only returns dict documents),
and the model returns it unchanged. -/
def cacheIpInYaml (ip : PyStr) (interval : Int) (url : PyStr) (doc : Val) : Val :=
  let doc := if doc.pyTruthy then doc else emptyDoc
  match doc with
  | .vdict kvs0 =>
    let kvs1 := if isVDict (dictGet kvs0 "global_settings") then kvs0
                else dictSet kvs0 "global_settings" (.vdict [])
    let g0 := match dictGet kvs1 "global_settings" with
              | .vdict g => g
              | _ => []
    let g1 := dictSet g0 "last_known_ip" (.vstr ip)
    let g2 := dictSet g1 "check_interval_seconds" (.vint interval)
    let g3 := dictSet g2 "public_ip_service_url" (.vstr url)
    let kvs2 := dictSet kvs1 "global_settings" (.vdict g3)
    let kvs3 := if isVList (dictGet kvs2 "domains") then kvs2
                else dictSet kvs2 "domains" (.vlist [])
    .vdict kvs3
  | other => other

/-- The fully-qualified record name and display name built by
`update_dns_record` (lines 231-236): name `"@"` or empty maps to
`domainName.` shown as `@`; otherwise `recordName.domainName.`. -/
def fqdnOfRecord (domainName recordName : PyStr) : PyStr × PyStr :=
  if recordName == pys "@" || recordName.isEmpty then
    (domainName ++ pys ".", pys "@")
  else
    (recordName ++ '.' :: (domainName ++ pys "."), recordName)

/-- Observable side effects of one loop iteration: a DNS update HTTP call
(`update_dns_record`), a persistence of the document
(`cache_ip_in_yaml`), and the final `time.sleep`. -/
inductive Event where
  | updateCall : PyStr → PyStr → ValidRecord → Event
  | save : PyStr → Event
  | sleep : Int → Event
deriving Repr, DecidableEq

/-- The mutable state the main loop carries between iterations:
`MIJNHOST_API_KEY` presence, `cached_ip_from_config`,
`domain_configurations` (`none` is Python `None` after a fatal reload),
`CHECK_INTERVAL_SECONDS`, `PUBLIC_IP_SERVICE_URL`,
`dns_config_last_modified_time` and `parsed_config_data`. -/
structure LoopState where
  apiKey : Bool
  cachedIp : Val
  domains : Option (List ValidDomain)
  interval : Int
  url : PyStr
  lastMtime : Int
  doc : Val

/-- The external observations one iteration makes: the `os.path.getmtime`
result (`none` = `OSError`), the config file content if a reload happens,
whether the API key is set at reload time, the `get_public_ip` result
(`none` = any of its failure paths), and the per-record HTTP outcome of
`update_dns_record` as a function of (ip, domain name, record). -/
structure CycleInput where
  mtime : Option Int
  reload : LoadInput
  reloadApiKey : Bool
  resolvedIp : Option PyStr
  upd : PyStr → PyStr → ValidRecord → Bool

/-- Python `current_public_ip != cached_ip_from_config`, negated: a string
only ever equals another string. -/
def ipMatchesCached (ip : PyStr) (cached : Val) : Bool :=
  match cached with
  | .vstr s => ip == s
  | _ => false

/-- Python `not domain_configurations`: `None` or the empty list. -/
def domsFalsy : Option (List ValidDomain) → Bool
  | none => true
  | some l => l.isEmpty

/-- The update sweep of lines 357-364: iterate over every record of every
domain, calling `update_dns_record` on each and and-ing the results into
the aggregate flag, never stopping early. -/
def runBatch (upd : PyStr → PyStr → ValidRecord → Bool) (ip : PyStr)
    (ds : List ValidDomain) (acc : Bool × List Event) : Bool × List Event :=
  ds.foldl (fun a d =>
    d.records.foldl (fun a2 r =>
      (a2.1 && upd ip d.domain_name r,
       a2.2 ++ [Event.updateCall ip d.domain_name r])) a) acc

/-- All per-record results of a sweep and-ed together: the value
`all_updates_successful_for_new_ip` ends up with. -/
def batchOk (upd : PyStr → PyStr → ValidRecord → Bool) (ip : PyStr)
    (ds : List ValidDomain) : Bool :=
  ds.all (fun d => d.records.all (fun r => upd ip d.domain_name r))

/-- One `update_dns_record` call per record of every domain, in sweep
order. -/
def batchCalls (ip : PyStr) (ds : List ValidDomain) : List Event :=
  (ds.map (fun d => d.records.map
    (fun r => Event.updateCall ip d.domain_name r))).flatten

/-- Key lookup on a document value (`vnull` when absent or not a dict). -/
def docGet (v : Val) (k : String) : Val :=
  match v with
  | .vdict kvs => dictGet kvs k
  | _ => .vnull

/-- Result of one iteration: the successor state plus the emitted events,
or an uncaught exception. -/
inductive StepResult where
  | next : LoopState → List Event → StepResult
  | crashed : StepResult

/-- Lines 345-379: resolve the public IP, compare with the cached IP,
run the update sweep, persist on full success, sleep. -/
def ipPhase (s : LoopState) (inp : CycleInput) : LoopState × List Event :=
  match inp.resolvedIp with
  | none => (s, [Event.sleep s.interval])
  | some ip =>
    if ipMatchesCached ip s.cachedIp then
      (s, [Event.sleep s.interval])
    else if domsFalsy s.domains then
      ({s with doc := cacheIpInYaml ip s.interval s.url s.doc,
               cachedIp := .vstr ip},
       [Event.save ip, Event.sleep s.interval])
    else
      let ds := s.domains.getD []
      let res := runBatch inp.upd ip ds (true, [])
      if res.1 then
        ({s with doc := cacheIpInYaml ip s.interval s.url s.doc,
                 cachedIp := .vstr ip},
         res.2 ++ [Event.save ip, Event.sleep s.interval])
      else
        (s, res.2 ++ [Event.sleep s.interval])

/-- One iteration of the `while True` loop (lines 313-379).  On a detected
modification-time change the config is reloaded; the code sets
`dns_config_last_modified_time = current_mtime` immediately after the
`load_and_validate_config` call, before checking the fatal sentinel
(line 328).  A fatal reload clears the cached IP and domains (the
`None, None` unpacking), sleeps, and skips the rest of the iteration. -/
def stepIter (s : LoopState) (inp : CycleInput) : StepResult :=
  match inp.mtime with
  | none =>
    let p := ipPhase {s with lastMtime := 0} inp
    .next p.1 p.2
  | some m =>
    if m = s.lastMtime then
      let p := ipPhase s inp
      .next p.1 p.2
    else
      match loadAndValidateConfig inp.reloadApiKey inp.reload with
      | .crash => .crashed
      | .fatal =>
        let s1 := {s with apiKey := inp.reloadApiKey, cachedIp := .vnull,
                          domains := none, lastMtime := m}
        if !inp.reloadApiKey then
          .next s1 [Event.sleep DEFAULT_CHECK_INTERVAL_SECONDS]
        else
          .next s1 [Event.sleep (if s.interval > 0 then s.interval
                                 else DEFAULT_CHECK_INTERVAL_SECONDS)]
      | .ok r =>
        let s1 : LoopState := ⟨true, r.lastIp, some r.domains, r.interval,
                               r.url, m, r.doc⟩
        let p := ipPhase s1 inp
        .next p.1 p.2

/-! ### String and integer-parsing lemmas -/

theorem dropWhile_pstrip (s : PyStr) :
    (pstrip s).dropWhile pyIsSpace = pstrip s := by
  unfold pstrip
  set m := s.dropWhile pyIsSpace with hm
  have hself : m.dropWhile pyIsSpace = m := by
    rw [hm]; exact List.dropWhile_idempotent _ _
  obtain ⟨t, ht⟩ := List.rdropWhile_prefix (p := pyIsSpace) (l := m)
  cases hr : m.rdropWhile pyIsSpace with
  | nil => simp [List.dropWhile]
  | cons c r' =>
    have hmc : m = c :: (r' ++ t) := by
      rw [← ht, hr]; simp
    have hd : List.dropWhile pyIsSpace (c :: (r' ++ t)) = c :: (r' ++ t) := by
      rw [← hmc]; exact hself
    have hc : ¬ pyIsSpace c := by
      by_cases hpc : pyIsSpace c
      · rw [List.dropWhile_cons, if_pos hpc] at hd
        have hle := (List.dropWhile_sublist (l := r' ++ t) pyIsSpace).length_le
        rw [hd] at hle
        simp at hle
      · exact hpc
    rw [List.dropWhile_cons, if_neg hc]

theorem pstrip_idem (s : PyStr) : pstrip (pstrip s) = pstrip s := by
  conv_lhs => rw [pstrip, dropWhile_pstrip s]
  rw [pstrip, List.rdropWhile_idempotent]

theorem pstrip_eq_self (s : PyStr) (h : ∀ c ∈ s, pyIsSpace c = false) :
    pstrip s = s := by
  unfold pstrip
  have h1 : s.dropWhile pyIsSpace = s := by
    refine List.dropWhile_eq_self_iff.mpr (fun hl => ?_)
    simpa using h _ (List.get_mem s 0 hl)
  rw [h1]
  refine List.rdropWhile_eq_self_iff.mpr (fun hl => ?_)
  simpa using h _ (List.getLast_mem hl)

theorem digitChar_facts (n : Nat) (h : n < 10) :
    (digitChar n).isDigit = true ∧ pyIsSpace (digitChar n) = false ∧
      digitChar n ≠ '-' ∧ digitChar n ≠ '+' ∧ (digitChar n).toNat - 48 = n := by
  interval_cases n <;> exact ⟨by decide, by decide, by decide, by decide, by decide⟩

theorem natRepr_ne_nil (n : Nat) : natRepr n ≠ [] := by
  rw [natRepr]
  split <;> simp

theorem natRepr_chars (n : Nat) :
    ∀ c ∈ natRepr n, (c.isDigit = true ∧ pyIsSpace c = false ∧
      c ≠ '-' ∧ c ≠ '+') := by
  induction n using Nat.strong_induction_on with
  | _ n ih =>
    intro c hc
    rw [natRepr] at hc
    split at hc
    · next h =>
      have hcc : c = digitChar n := by simpa using hc
      obtain ⟨h1, h2, h3, h4, _⟩ := digitChar_facts n h
      exact hcc ▸ ⟨h1, h2, h3, h4⟩
    · next h =>
      rcases List.mem_append.mp hc with h1 | h2
      · exact ih (n / 10) (Nat.div_lt_self (by omega) (by omega)) c h1
      · have hcc : c = digitChar (n % 10) := by simpa using h2
        obtain ⟨g1, g2, g3, g4, _⟩ := digitChar_facts (n % 10) (Nat.mod_lt _ (by omega))
        exact hcc ▸ ⟨g1, g2, g3, g4⟩

theorem digitsVal_append (l : PyStr) (c : Char) :
    digitsVal (l ++ [c]) = digitsVal l * 10 + (c.toNat - 48) := by
  simp [digitsVal, List.foldl_append]

theorem digitsVal_natRepr (n : Nat) : digitsVal (natRepr n) = n := by
  induction n using Nat.strong_induction_on with
  | _ n ih =>
    rw [natRepr]
    split
    · next h =>
      simp [digitsVal]
      exact (digitChar_facts n h).2.2.2.2
    · next h =>
      rw [digitsVal_append, ih (n / 10) (Nat.div_lt_self (by omega) (by omega)),
        (digitChar_facts (n % 10) (Nat.mod_lt _ (by omega))).2.2.2.2]
      omega

theorem allDigits_natRepr (n : Nat) : allDigits (natRepr n) = true := by
  simp only [allDigits, List.all_eq_true]
  exact fun c hc => (natRepr_chars n c hc).1

theorem natRepr_isEmpty (n : Nat) : (natRepr n).isEmpty = false := by
  cases hnr : natRepr n with
  | nil => exact absurd hnr (natRepr_ne_nil n)
  | cons c r => rfl

theorem digitsToNat_natRepr (n : Nat) : digitsToNat (natRepr n) = some n := by
  have hcond : (!(natRepr n).isEmpty && allDigits (natRepr n)) = true := by
    rw [natRepr_isEmpty, allDigits_natRepr]; rfl
  rw [digitsToNat, if_pos hcond, digitsVal_natRepr]

theorem pstrip_natRepr (n : Nat) : pstrip (natRepr n) = natRepr n :=
  pstrip_eq_self _ (fun c hc => (natRepr_chars n c hc).2.1)

theorem parsePyInt_natRepr (n : Nat) : parsePyInt (natRepr n) = some (n : Int) := by
  rw [parsePyInt, pstrip_natRepr]
  cases h : natRepr n with
  | nil => exact absurd h (natRepr_ne_nil n)
  | cons c rest =>
    have hc := natRepr_chars n c (h ▸ List.mem_cons_self c rest)
    dsimp only
    rw [if_neg hc.2.2.1, if_neg hc.2.2.2, ← h, digitsToNat_natRepr]
    rfl

theorem intRepr_pos (n : Int) (h : 0 < n) : intRepr n = natRepr n.toNat := by
  rw [intRepr, if_neg (by omega)]

theorem parsePyInt_intRepr (n : Int) (h : 0 < n) :
    parsePyInt (intRepr n) = some n := by
  rw [intRepr_pos n h, parsePyInt_natRepr, Int.toNat_of_nonneg (le_of_lt h)]

theorem pstrip_intRepr (n : Int) (h : 0 < n) : pstrip (intRepr n) = intRepr n := by
  rw [intRepr_pos n h]; exact pstrip_natRepr _

/-! ### Dictionary lemmas -/

theorem dictGet_dictSet_self (kvs : List (String × Val)) (k : String) (v : Val) :
    dictGet (dictSet kvs k v) k = v := by
  induction kvs with
  | nil => simp [dictSet, dictGet, List.find?]
  | cons p rest ih =>
    obtain ⟨k', v'⟩ := p
    by_cases h : k' = k
    · simp [dictSet, h, dictGet, List.find?]
    · simpa [dictSet, h, dictGet, List.find?] using ih

theorem dictGet_dictSet_ne (kvs : List (String × Val)) (k k' : String) (v : Val)
    (h : k' ≠ k) : dictGet (dictSet kvs k v) k' = dictGet kvs k' := by
  induction kvs with
  | nil => simp [dictSet, dictGet, List.find?, Ne.symm h]
  | cons p rest ih =>
    obtain ⟨k0, v0⟩ := p
    by_cases h0 : k0 = k
    · subst h0
      simp [dictSet, dictGet, List.find?, Ne.symm h]
    · by_cases h1 : k0 = k'
      · simp [dictSet, h0, dictGet, List.find?, h1, h]
      · simpa [dictSet, h0, dictGet, List.find?, h1] using ih

/-! ### Validation inversion and idempotence -/

theorem validateRecord_some (rv : Val) (r : ValidRecord)
    (h : validateRecord rv = some r) :
    pstrip r.name = r.name ∧ r.name ≠ [] ∧
      (r.type = pys "A" ∨ r.type = pys "AAAA") ∧ 0 < r.ttl := by
  cases rv with
  | vdict kvs =>
    unfold validateRecord at h
    dsimp only at h
    split at h
    case isFalse => exact Option.noConfusion h
    case isTrue hmem =>
      split at h
      case isTrue => exact Option.noConfusion h
      case isFalse hname =>
        split at h
        case isTrue => exact Option.noConfusion h
        case isFalse htype =>
          split at h
          case h_1 => exact Option.noConfusion h
          case h_2 n hts =>
            split at h
            case isTrue => exact Option.noConfusion h
            case isFalse httl =>
              have hr := Option.some.inj h
              subst hr
              dsimp only
              refine ⟨pstrip_idem _, ?_, ?_, by omega⟩
              · intro hnil
                exact hname (by simp [hnil])
              · exact or_iff_not_imp_left.mpr (by simpa using htype)
  | vnull => exact Option.noConfusion h
  | vbool b => exact Option.noConfusion h
  | vint n => exact Option.noConfusion h
  | vstr s => exact Option.noConfusion h
  | vlist l => exact Option.noConfusion h

theorem validateRecord_toVal (r : ValidRecord)
    (hname : pstrip r.name = r.name) (hne : r.name ≠ [])
    (htype : r.type = pys "A" ∨ r.type = pys "AAAA") (httl : 0 < r.ttl) :
    validateRecord (recordToVal r) = some r := by
  obtain ⟨nm, ty, tl⟩ := r
  simp only at hname hne htype httl
  have hie : nm.isEmpty = false := by
    cases nm with
    | nil => exact absurd rfl hne
    | cons c l => rfl
  have hty : pstrip (pupper ty) = ty := by
    rcases htype with h | h <;> rw [h] <;> decide
  have htyb : (ty == pys "A" || ty == pys "AAAA") = true := by
    rcases htype with h | h <;> rw [h] <;> decide
  show (if (pstrip nm).isEmpty = true then none
      else if (!(pstrip (pupper ty) == pys "A" ||
          pstrip (pupper ty) == pys "AAAA")) = true then none
      else
        match parsePyInt (pstrip (intRepr tl)) with
        | none => none
        | some record_ttl =>
          if record_ttl ≤ 0 then none
          else some ⟨pstrip nm, pstrip (pupper ty), record_ttl⟩) =
    some (⟨nm, ty, tl⟩ : ValidRecord)
  rw [hname, hie, hty, htyb]
  simp only [Bool.false_eq_true, if_false, Bool.not_true]
  rw [pstrip_intRepr tl httl, parsePyInt_intRepr tl httl]
  dsimp only
  rw [if_neg (by omega : ¬ tl ≤ 0)]

/-- `l.filterMap f = l` when `f` fixes every element of `l`. -/
theorem filterMap_eq_self_of (f : α → Option α) (l : List α)
    (h : ∀ x ∈ l, f x = some x) : l.filterMap f = l := by
  induction l with
  | nil => rfl
  | cons x xs ih =>
    rw [List.filterMap_cons, h x (List.mem_cons_self x xs),
      ih (fun y hy => h y (List.mem_cons_of_mem x hy))]

theorem validateDomain_some (dv : Val) (d : ValidDomain)
    (h : validateDomain dv = some d) :
    pstrip d.domain_name = d.domain_name ∧ d.domain_name ≠ [] ∧
      d.records ≠ [] ∧ ∀ r ∈ d.records, ∃ rv, validateRecord rv = some r := by
  cases dv with
  | vdict kvs =>
    unfold validateDomain at h
    dsimp only at h
    split at h
    case isTrue => exact Option.noConfusion h
    case isFalse hmem =>
      split at h
      case h_2 => exact Option.noConfusion h
      case h_1 rs hrs =>
        split at h
        case isTrue => exact Option.noConfusion h
        case isFalse hrse =>
          split at h
          case isTrue => exact Option.noConfusion h
          case isFalse hnme =>
            split at h
            case isTrue => exact Option.noConfusion h
            case isFalse hve =>
              have hd := Option.some.inj h
              subst hd
              dsimp only
              refine ⟨pstrip_idem _, ?_, ?_, ?_⟩
              · intro hnil
                exact hnme (by simp [hnil])
              · intro hnil
                exact hve (by simp [hnil])
              · intro r hr
                obtain ⟨rv, _, hrv⟩ := List.mem_filterMap.mp hr
                exact ⟨rv, hrv⟩
  | vnull => exact Option.noConfusion h
  | vbool b => exact Option.noConfusion h
  | vint n => exact Option.noConfusion h
  | vstr s => exact Option.noConfusion h
  | vlist l => exact Option.noConfusion h

theorem validateDomain_toVal (d : ValidDomain)
    (hname : pstrip d.domain_name = d.domain_name) (hne : d.domain_name ≠ [])
    (hrec : d.records ≠ [])
    (hall : ∀ r ∈ d.records, validateRecord (recordToVal r) = some r) :
    validateDomain (domainToVal d) = some d := by
  obtain ⟨nm, rs⟩ := d
  simp only at hname hne hrec hall
  have hmap : (rs.map recordToVal).filterMap validateRecord = rs := by
    rw [List.filterMap_map]
    exact filterMap_eq_self_of _ rs hall
  have hmie : (rs.map recordToVal).isEmpty = false := by
    cases rs with
    | nil => exact absurd rfl hrec
    | cons r l => rfl
  have hnmie : nm.isEmpty = false := by
    cases nm with
    | nil => exact absurd rfl hne
    | cons c l => rfl
  show (if (rs.map recordToVal).isEmpty = true then none
      else if (pstrip nm).isEmpty = true then none
      else if ((rs.map recordToVal).filterMap validateRecord).isEmpty = true then none
      else some ⟨pstrip nm, (rs.map recordToVal).filterMap validateRecord⟩) =
    some (⟨nm, rs⟩ : ValidDomain)
  rw [hname, hmap, hmie, hnmie]
  have hrsie : rs.isEmpty = false := by
    cases rs with
    | nil => exact absurd rfl hrec
    | cons r l => rfl
  rw [hrsie]
  simp only [Bool.false_eq_true, if_false]

theorem validateDomains_idem (xs : List Val) :
    validateDomains ((validateDomains xs).map domainToVal) = validateDomains xs := by
  unfold validateDomains
  rw [List.filterMap_map]
  apply filterMap_eq_self_of
  intro d hd
  obtain ⟨dv, _, hsome⟩ := List.mem_filterMap.mp hd
  obtain ⟨h1, h2, h3, h4⟩ := validateDomain_some dv d hsome
  apply validateDomain_toVal d h1 h2 h3
  intro r hr
  obtain ⟨rv, hrv⟩ := h4 r hr
  obtain ⟨g1, g2, g3, g4⟩ := validateRecord_some rv r hrv
  exact validateRecord_toVal r g1 g2 g3 g4

theorem normInterval_pos (v : Val) : 0 < normInterval v := by
  cases v with
  | vnull => decide
  | vbool b => cases b <;> decide
  | vint n =>
    show (0 : Int) < if n ≤ 0 then DEFAULT_CHECK_INTERVAL_SECONDS else n
    split
    · decide
    next h => omega
  | vstr s =>
    show (0 : Int) < (match parsePyInt s with
      | some n => if n ≤ 0 then DEFAULT_CHECK_INTERVAL_SECONDS else n
      | none => DEFAULT_CHECK_INTERVAL_SECONDS)
    cases hp : parsePyInt s with
    | none => decide
    | some n =>
      dsimp only
      split
      · decide
      next h => omega
  | vlist l =>
    show (0 : Int) < DEFAULT_CHECK_INTERVAL_SECONDS
    decide
  | vdict kvs =>
    show (0 : Int) < DEFAULT_CHECK_INTERVAL_SECONDS
    decide

theorem normInterval_idem (v : Val) :
    normInterval (Val.vint (normInterval v)) = normInterval v := by
  have h := normInterval_pos v
  show (if normInterval v ≤ 0 then DEFAULT_CHECK_INTERVAL_SECONDS
        else normInterval v) = normInterval v
  rw [if_neg (by omega)]

theorem startsOk (s : PyStr) :
    ((pys "http://").isPrefixOf
        (if ((pys "http://").isPrefixOf s || (pys "https://").isPrefixOf s) = true
         then s else DEFAULT_PUBLIC_IP_SERVICE_URL) ||
      (pys "https://").isPrefixOf
        (if ((pys "http://").isPrefixOf s || (pys "https://").isPrefixOf s) = true
         then s else DEFAULT_PUBLIC_IP_SERVICE_URL)) = true := by
  by_cases h : ((pys "http://").isPrefixOf s || (pys "https://").isPrefixOf s) = true
  · rw [if_pos h]
    exact h
  · rw [if_neg h]
    decide

theorem normUrl_starts (v : Val) :
    ((pys "http://").isPrefixOf (normUrl v) ||
      (pys "https://").isPrefixOf (normUrl v)) = true := by
  cases v with
  | vnull => decide
  | vbool b => exact startsOk (pyStrVal (Val.vbool b))
  | vint n => exact startsOk (pyStrVal (Val.vint n))
  | vstr s => exact startsOk (pyStrVal (Val.vstr s))
  | vlist l => exact startsOk (pyStrVal (Val.vlist l))
  | vdict kvs => exact startsOk (pyStrVal (Val.vdict kvs))

theorem normUrl_idem (v : Val) : normUrl (Val.vstr (normUrl v)) = normUrl v := by
  show (if ((pys "http://").isPrefixOf (normUrl v) ||
        (pys "https://").isPrefixOf (normUrl v)) = true
      then normUrl v else DEFAULT_PUBLIC_IP_SERVICE_URL) = normUrl v
  rw [if_pos (normUrl_starts v)]

/-! ### Reconciliation-loop lemmas -/

theorem foldl_and_calls {α : Type} (f : α → Bool) (g : α → Event) :
    ∀ (l : List α) (b : Bool) (evs : List Event),
      l.foldl (fun a x => (a.1 && f x, a.2 ++ [g x])) (b, evs) =
        (b && l.all f, evs ++ l.map g) := by
  intro l
  induction l with
  | nil => intro b evs; simp
  | cons x xs ih =>
    intro b evs
    rw [List.foldl_cons, ih]
    simp [Bool.and_assoc]

theorem runBatch_spec (upd : PyStr → PyStr → ValidRecord → Bool) (ip : PyStr) :
    ∀ (ds : List ValidDomain) (b : Bool) (evs : List Event),
      runBatch upd ip ds (b, evs) =
        (b && batchOk upd ip ds, evs ++ batchCalls ip ds) := by
  intro ds
  induction ds with
  | nil =>
    intro b evs
    simp [runBatch, batchOk, batchCalls]
  | cons d ds ih =>
    intro b evs
    have step : runBatch upd ip (d :: ds) (b, evs) =
        runBatch upd ip ds
          (b && d.records.all (fun r => upd ip d.domain_name r),
           evs ++ d.records.map (fun r => Event.updateCall ip d.domain_name r)) := by
      rw [runBatch, List.foldl_cons]
      rw [foldl_and_calls (fun r => upd ip d.domain_name r)
        (fun r => Event.updateCall ip d.domain_name r) d.records b evs]
      rfl
    rw [step, ih]
    simp [batchOk, batchCalls, Bool.and_assoc]

theorem save_not_mem_batchCalls (ip j : PyStr) (ds : List ValidDomain) :
    Event.save j ∉ batchCalls ip ds := by
  intro hj
  simp only [batchCalls, List.mem_flatten, List.mem_map] at hj
  obtain ⟨l, ⟨d, _, hdl⟩, hjl⟩ := hj
  subst hdl
  obtain ⟨r, _, hr⟩ := List.mem_map.mp hjl
  exact Event.noConfusion hr

theorem stepIter_no_reload (s : LoopState) (inp : CycleInput)
    (hm : inp.mtime = some s.lastMtime) :
    stepIter s inp = .next (ipPhase s inp).1 (ipPhase s inp).2 := by
  unfold stepIter
  rw [hm]
  dsimp only
  rw [if_pos rfl]

theorem ipPhase_batch (s : LoopState) (inp : CycleInput) (ip : PyStr)
    (ds : List ValidDomain)
    (hip : inp.resolvedIp = some ip)
    (hne : ipMatchesCached ip s.cachedIp = false)
    (hds : s.domains = some ds) (hdne : ds ≠ []) :
    ipPhase s inp =
      (if batchOk inp.upd ip ds
        then {s with doc := cacheIpInYaml ip s.interval s.url s.doc,
                     cachedIp := .vstr ip}
        else s,
       batchCalls ip ds ++
         (if batchOk inp.upd ip ds then [Event.save ip] else []) ++
         [Event.sleep s.interval]) := by
  unfold ipPhase
  rw [hip]
  dsimp only
  rw [hne]
  have hdf : domsFalsy s.domains = false := by
    rw [hds]
    cases ds with
    | nil => exact absurd rfl hdne
    | cons d l => rfl
  rw [hdf]
  simp only [Bool.false_eq_true, if_false]
  rw [hds]
  dsimp only [Option.getD]
  rw [runBatch_spec inp.upd ip ds true []]
  simp only [Bool.true_and, List.nil_append]
  by_cases hok : batchOk inp.upd ip ds
  · rw [if_pos hok, if_pos hok, if_pos hok]
    simp
  · rw [if_neg hok, if_neg hok, if_neg hok]
    simp

/-! ### Claim theorems -/

/-- C1: in a cycle where the resolved public IP differs from the cached IP
and at least one DNS record update fails, the loop does not call
`cache_ip_in_yaml` (no save event), and the state — in particular the
in-memory cached IP, the document, and the domain set — is left unchanged,
so the next cycle re-attempts the full batch with the same IP comparison. -/
theorem C1_failed_batch_no_save (s : LoopState) (inp : CycleInput)
    (ip : PyStr) (ds : List ValidDomain)
    (hip : inp.resolvedIp = some ip)
    (hne : ipMatchesCached ip s.cachedIp = false)
    (hds : s.domains = some ds) (hdne : ds ≠ [])
    (hfail : batchOk inp.upd ip ds = false) :
    ipPhase s inp = (s, batchCalls ip ds ++ [Event.sleep s.interval]) ∧
    (inp.mtime = some s.lastMtime →
      stepIter s inp = .next s (batchCalls ip ds ++ [Event.sleep s.interval])) ∧
    ∀ j, Event.save j ∉ batchCalls ip ds ++ [Event.sleep s.interval] := by
  have hbase : ipPhase s inp = (s, batchCalls ip ds ++ [Event.sleep s.interval]) := by
    rw [ipPhase_batch s inp ip ds hip hne hds hdne, hfail]
    simp
  refine ⟨hbase, ?_, ?_⟩
  · intro hm
    rw [stepIter_no_reload s inp hm, hbase]
  · intro j hj
    rcases List.mem_append.mp hj with h | h
    · exact save_not_mem_batchCalls ip j ds h
    · simp at h

/-- C1 witness: a concrete one-domain, one-record state whose single update
fails; the step leaves the state unchanged and emits no save. -/
theorem C1_failed_batch_no_save_witness :
    ipPhase
        ⟨true, Val.vstr (pys "203.0.113.1"),
          some [⟨pys "example.com", [⟨pys "www", pys "A", 300⟩]⟩],
          300, DEFAULT_PUBLIC_IP_SERVICE_URL, 5, emptyDoc⟩
        ⟨some 5, .parsed Val.vnull, true, some (pys "203.0.113.9"), fun _ _ _ => false⟩ =
      (⟨true, Val.vstr (pys "203.0.113.1"),
          some [⟨pys "example.com", [⟨pys "www", pys "A", 300⟩]⟩],
          300, DEFAULT_PUBLIC_IP_SERVICE_URL, 5, emptyDoc⟩,
        batchCalls (pys "203.0.113.9") [⟨pys "example.com", [⟨pys "www", pys "A", 300⟩]⟩] ++
          [Event.sleep 300]) ∧
    ((⟨some 5, .parsed Val.vnull, true, some (pys "203.0.113.9"),
        fun _ _ _ => false⟩ : CycleInput).mtime = some (5 : Int) →
      stepIter
        ⟨true, Val.vstr (pys "203.0.113.1"),
          some [⟨pys "example.com", [⟨pys "www", pys "A", 300⟩]⟩],
          300, DEFAULT_PUBLIC_IP_SERVICE_URL, 5, emptyDoc⟩
        ⟨some 5, .parsed Val.vnull, true, some (pys "203.0.113.9"), fun _ _ _ => false⟩ =
      .next
        ⟨true, Val.vstr (pys "203.0.113.1"),
          some [⟨pys "example.com", [⟨pys "www", pys "A", 300⟩]⟩],
          300, DEFAULT_PUBLIC_IP_SERVICE_URL, 5, emptyDoc⟩
        (batchCalls (pys "203.0.113.9") [⟨pys "example.com", [⟨pys "www", pys "A", 300⟩]⟩] ++
          [Event.sleep 300])) ∧
      ∀ j, Event.save j ∉
        batchCalls (pys "203.0.113.9") [⟨pys "example.com", [⟨pys "www", pys "A", 300⟩]⟩] ++
          [Event.sleep 300] :=
  C1_failed_batch_no_save _ _ _ _ rfl (by decide) rfl (by decide) (by decide)

/-- C4: in a cycle where the resolved IP differs from the cached IP and the
domain set is non-empty, one `update_dns_record` call is made per record of
every domain in order with no short-circuit (the event list always contains
the full `batchCalls` sweep), the aggregate flag is the AND of all
per-record results, and a save happens exactly when that AND is true. -/
theorem C4_full_sweep_aggregate (s : LoopState) (inp : CycleInput)
    (ip : PyStr) (ds : List ValidDomain)
    (hip : inp.resolvedIp = some ip)
    (hne : ipMatchesCached ip s.cachedIp = false)
    (hds : s.domains = some ds) (hdne : ds ≠ []) :
    ipPhase s inp =
      (if batchOk inp.upd ip ds
        then {s with doc := cacheIpInYaml ip s.interval s.url s.doc,
                     cachedIp := .vstr ip}
        else s,
       batchCalls ip ds ++
        (if batchOk inp.upd ip ds then [Event.save ip] else []) ++
        [Event.sleep s.interval]) ∧
    (inp.mtime = some s.lastMtime →
      stepIter s inp = .next
        (if batchOk inp.upd ip ds
          then {s with doc := cacheIpInYaml ip s.interval s.url s.doc,
                       cachedIp := .vstr ip}
          else s)
        (batchCalls ip ds ++
          (if batchOk inp.upd ip ds then [Event.save ip] else []) ++
          [Event.sleep s.interval])) ∧
    batchOk inp.upd ip ds =
      ds.all (fun d => d.records.all (fun r => inp.upd ip d.domain_name r)) ∧
    (Event.save ip ∈
        batchCalls ip ds ++
          (if batchOk inp.upd ip ds then [Event.save ip] else []) ++
          [Event.sleep s.interval] ↔
      batchOk inp.upd ip ds = true) := by
  have hbase := ipPhase_batch s inp ip ds hip hne hds hdne
  refine ⟨hbase, ?_, rfl, ?_⟩
  · intro hm
    rw [stepIter_no_reload s inp hm, hbase]
  · constructor
    · intro hmem
      rcases List.mem_append.mp hmem with h | h
      · rcases List.mem_append.mp h with h1 | h1
        · exact absurd h1 (save_not_mem_batchCalls ip ip ds)
        · by_cases hok : batchOk inp.upd ip ds
          · exact hok
          · rw [if_neg hok] at h1
            simp at h1
      · simp at h
    · intro hok
      rw [hok]
      simp

/-- C4 witness: concrete two-record sweep with one failure; both records
still get a call and no save happens. -/
theorem C4_full_sweep_aggregate_witness :
    (ipPhase
        ⟨true, Val.vstr (pys "203.0.113.1"),
          some [⟨pys "example.com",
            [⟨pys "www", pys "A", 300⟩, ⟨pys "@", pys "AAAA", 60⟩]⟩],
          120, DEFAULT_PUBLIC_IP_SERVICE_URL, 9, emptyDoc⟩
        ⟨some 9, .parsed Val.vnull, true, some (pys "203.0.113.9"),
          fun _ _ r => r.name == pys "www"⟩ =
      ((if batchOk (fun _ _ r => r.name == pys "www") (pys "203.0.113.9")
            [⟨pys "example.com",
              [⟨pys "www", pys "A", 300⟩, ⟨pys "@", pys "AAAA", 60⟩]⟩]
        then ⟨true, Val.vstr (pys "203.0.113.9"),
          some [⟨pys "example.com",
            [⟨pys "www", pys "A", 300⟩, ⟨pys "@", pys "AAAA", 60⟩]⟩],
          120, DEFAULT_PUBLIC_IP_SERVICE_URL, 9,
          cacheIpInYaml (pys "203.0.113.9") 120 DEFAULT_PUBLIC_IP_SERVICE_URL emptyDoc⟩
        else ⟨true, Val.vstr (pys "203.0.113.1"),
          some [⟨pys "example.com",
            [⟨pys "www", pys "A", 300⟩, ⟨pys "@", pys "AAAA", 60⟩]⟩],
          120, DEFAULT_PUBLIC_IP_SERVICE_URL, 9, emptyDoc⟩),
      (batchCalls (pys "203.0.113.9")
          [⟨pys "example.com",
            [⟨pys "www", pys "A", 300⟩, ⟨pys "@", pys "AAAA", 60⟩]⟩] ++
        (if batchOk (fun _ _ r => r.name == pys "www") (pys "203.0.113.9")
              [⟨pys "example.com",
                [⟨pys "www", pys "A", 300⟩, ⟨pys "@", pys "AAAA", 60⟩]⟩]
          then [Event.save (pys "203.0.113.9")] else []) ++
        [Event.sleep 120]))) ∧
    batchOk (fun _ _ r => r.name == pys "www") (pys "203.0.113.9")
      [⟨pys "example.com",
        [⟨pys "www", pys "A", 300⟩, ⟨pys "@", pys "AAAA", 60⟩]⟩] = false :=
  ⟨(C4_full_sweep_aggregate _ _ _ _ rfl (by decide) rfl (by decide)).1,
    by decide⟩

/-- C9: in a cycle with no configuration change where the resolved IP
equals the cached IP, no DNS update call and no save happen: the loop goes
straight to the sleep step with the state unchanged. -/
theorem C9_equal_ip_no_action (s : LoopState) (inp : CycleInput) (ip : PyStr)
    (hip : inp.resolvedIp = some ip)
    (heq : ipMatchesCached ip s.cachedIp = true) :
    ipPhase s inp = (s, [Event.sleep s.interval]) ∧
    (inp.mtime = some s.lastMtime →
      stepIter s inp = .next s [Event.sleep s.interval]) := by
  have hbase : ipPhase s inp = (s, [Event.sleep s.interval]) := by
    unfold ipPhase
    rw [hip]
    dsimp only
    rw [heq]
    simp
  refine ⟨hbase, ?_⟩
  intro hm
  rw [stepIter_no_reload s inp hm, hbase]

/-- C9 witness: concrete state where the resolver returns the cached IP. -/
theorem C9_equal_ip_no_action_witness :
    ipPhase
        ⟨true, Val.vstr (pys "203.0.113.1"),
          some [⟨pys "example.com", [⟨pys "www", pys "A", 300⟩]⟩],
          300, DEFAULT_PUBLIC_IP_SERVICE_URL, 7, emptyDoc⟩
        ⟨some 7, .parsed Val.vnull, true, some (pys "203.0.113.1"),
          fun _ _ _ => true⟩ =
      (⟨true, Val.vstr (pys "203.0.113.1"),
          some [⟨pys "example.com", [⟨pys "www", pys "A", 300⟩]⟩],
          300, DEFAULT_PUBLIC_IP_SERVICE_URL, 7, emptyDoc⟩,
        [Event.sleep 300]) ∧
    ((⟨some 7, .parsed Val.vnull, true, some (pys "203.0.113.1"),
        fun _ _ _ => true⟩ : CycleInput).mtime = some (7 : Int) →
      stepIter
        ⟨true, Val.vstr (pys "203.0.113.1"),
          some [⟨pys "example.com", [⟨pys "www", pys "A", 300⟩]⟩],
          300, DEFAULT_PUBLIC_IP_SERVICE_URL, 7, emptyDoc⟩
        ⟨some 7, .parsed Val.vnull, true, some (pys "203.0.113.1"),
          fun _ _ _ => true⟩ =
      .next
        ⟨true, Val.vstr (pys "203.0.113.1"),
          some [⟨pys "example.com", [⟨pys "www", pys "A", 300⟩]⟩],
          300, DEFAULT_PUBLIC_IP_SERVICE_URL, 7, emptyDoc⟩
        [Event.sleep 300]) :=
  C9_equal_ip_no_action _ _ _ rfl (by decide)

/-- C6: when the config file is present but fails to parse,
`load_and_validate_config` returns the `None, None` sentinel (`fatal`), and
the iteration that detected a change performs no update cycle: the only
event is the sleep; no update call and no save are issued. -/
theorem C6_parse_error_fatal (s : LoopState) (inp : CycleInput) (m : Int)
    (hm : inp.mtime = some m) (hchg : m ≠ s.lastMtime)
    (hre : inp.reload = .parseError) :
    loadAndValidateConfig inp.reloadApiKey .parseError = .fatal ∧
    stepIter s inp = .next
      {s with apiKey := inp.reloadApiKey, cachedIp := Val.vnull,
              domains := none, lastMtime := m}
      [Event.sleep (if !inp.reloadApiKey then DEFAULT_CHECK_INTERVAL_SECONDS
                    else if s.interval > 0 then s.interval
                    else DEFAULT_CHECK_INTERVAL_SECONDS)] := by
  constructor
  · cases hk : inp.reloadApiKey <;> rfl
  · unfold stepIter
    rw [hm]
    dsimp only
    rw [if_neg hchg, hre]
    cases hk : inp.reloadApiKey
    · rfl
    · rfl

/-- C6 witness: concrete state, config change detected, YAML parse error. -/
theorem C6_parse_error_fatal_witness :
    loadAndValidateConfig true .parseError = .fatal ∧
    stepIter
        ⟨true, Val.vstr (pys "203.0.113.1"),
          some [⟨pys "example.com", [⟨pys "www", pys "A", 300⟩]⟩],
          120, DEFAULT_PUBLIC_IP_SERVICE_URL, 3, emptyDoc⟩
        ⟨some 4, .parseError, true, some (pys "203.0.113.9"), fun _ _ _ => true⟩ =
      .next
        ⟨true, Val.vnull, none, 120, DEFAULT_PUBLIC_IP_SERVICE_URL, 4, emptyDoc⟩
        [Event.sleep (if !true then DEFAULT_CHECK_INTERVAL_SECONDS
                      else if (120 : Int) > 0 then 120
                      else DEFAULT_CHECK_INTERVAL_SECONDS)] :=
  C6_parse_error_fatal
    ⟨true, Val.vstr (pys "203.0.113.1"),
      some [⟨pys "example.com", [⟨pys "www", pys "A", 300⟩]⟩],
      120, DEFAULT_PUBLIC_IP_SERVICE_URL, 3, emptyDoc⟩
    ⟨some 4, .parseError, true, some (pys "203.0.113.9"), fun _ _ _ => true⟩
    4 rfl (by decide) rfl

/-- C3, code-bug evidence: in an iteration where the config file changed
(mtime 1 → 2) and the reload hits a YAML parse error, the code sets
`dns_config_last_modified_time` to the new mtime 2 before checking the
fatal sentinel (line 328 of `script.py`, despite its comment saying the
mtime is updated "after successful load"), and it also nulls the cached IP
and the domain list — so the unchanged-but-unparsable file does NOT
trigger another load attempt on the next iteration, contrary to the
claim. -/
theorem C3_mtime_advanced_on_fatal_reload :
    stepIter
        ⟨true, Val.vstr (pys "203.0.113.1"),
          some [⟨pys "example.com", [⟨pys "www", pys "A", 300⟩]⟩],
          60, DEFAULT_PUBLIC_IP_SERVICE_URL, 1, emptyDoc⟩
        ⟨some 2, .parseError, true, none, fun _ _ _ => true⟩ =
      .next ⟨true, Val.vnull, none, 60, DEFAULT_PUBLIC_IP_SERVICE_URL, 2, emptyDoc⟩
        [Event.sleep 60] := by
  rfl

theorem normInterval_of_some (v : Val) (n : Int) (h : pyToInt v = some n) :
    normInterval v =
      if n ≤ 0 then DEFAULT_CHECK_INTERVAL_SECONDS else n := by
  cases v with
  | vnull => exact Option.noConfusion h
  | vbool b =>
    cases b <;> (obtain rfl := Option.some.inj h; rfl)
  | vint k =>
    obtain rfl := Option.some.inj h
    rfl
  | vstr s =>
    have hp : parsePyInt s = some n := h
    show (match parsePyInt s with
      | some k => if k ≤ 0 then DEFAULT_CHECK_INTERVAL_SECONDS else k
      | none => DEFAULT_CHECK_INTERVAL_SECONDS) = _
    rw [hp]
  | vlist l => exact Option.noConfusion h
  | vdict kvs => exact Option.noConfusion h

theorem normInterval_of_none (v : Val) (h : pyToInt v = none) :
    normInterval v = DEFAULT_CHECK_INTERVAL_SECONDS := by
  cases v with
  | vnull => rfl
  | vbool b => exact Option.noConfusion h
  | vint k => exact Option.noConfusion h
  | vstr s =>
    have hp : parsePyInt s = none := h
    show (match parsePyInt s with
      | some k => if k ≤ 0 then DEFAULT_CHECK_INTERVAL_SECONDS else k
      | none => DEFAULT_CHECK_INTERVAL_SECONDS) = _
    rw [hp]
  | vlist l => rfl
  | vdict kvs => rfl

/-- C8: a `check_interval_seconds` value that is non-positive (such as the
concrete `-5`) or not convertible by `int(...)` falls back to the default
300 without being fatal, and a positive integer value is adopted as-is. -/
theorem C8_interval_fallback :
    normInterval (Val.vint (-5)) = 300 ∧
    DEFAULT_CHECK_INTERVAL_SECONDS = 300 ∧
    (∀ (v : Val) (n : Int), pyToInt v = some n → n ≤ 0 →
      normInterval v = DEFAULT_CHECK_INTERVAL_SECONDS) ∧
    (∀ v : Val, pyToInt v = none →
      normInterval v = DEFAULT_CHECK_INTERVAL_SECONDS) ∧
    (∀ (v : Val) (n : Int), pyToInt v = some n → 0 < n →
      normInterval v = n) := by
  refine ⟨by decide, rfl, ?_, ?_, ?_⟩
  · intro v n h hle
    rw [normInterval_of_some v n h, if_pos hle]
  · intro v h
    exact normInterval_of_none v h
  · intro v n h hpos
    rw [normInterval_of_some v n h, if_neg (by omega)]

/-- C8 witness: `-5` and a non-numeric string fall back to 300; the valid
value `60` is adopted. -/
theorem C8_interval_fallback_witness :
    normInterval (Val.vint (-5)) = 300 ∧
    pyToInt (Val.vstr (pys "five")) = none ∧
    normInterval (Val.vstr (pys "five")) = DEFAULT_CHECK_INTERVAL_SECONDS ∧
    pyToInt (Val.vint 60) = some 60 ∧
    normInterval (Val.vint 60) = 60 :=
  ⟨C8_interval_fallback.1,
    by decide,
    C8_interval_fallback.2.2.2.1 (Val.vstr (pys "five")) (by decide),
    rfl,
    C8_interval_fallback.2.2.2.2 (Val.vint 60) 60 rfl (by decide)⟩

/-- C2 counterexample: a record whose name strips to empty (here `" "`),
with valid type `A` and TTL `300`, is NOT retained by
`load_and_validate_config` — it is dropped (line 146-148), contradicting
the claim that an empty-after-trimming name is valid and kept as apex. -/
theorem C2_counterexample :
    validateRecord (Val.vdict [("name", Val.vstr (pys " ")),
      ("type", Val.vstr (pys "A")), ("ttl", Val.vint 300)]) = none := by
  decide

/-- C2 amended: a record whose name strips to empty is dropped by
validation; the apex must instead be written as `"@"`, which validation
retains (given a valid type and TTL), and `update_dns_record` maps both
`"@"` and the empty name to the fully-qualified `domainName.` displayed as
`@`. -/
theorem C2_amended (kvs : List (String × Val))
    (hmem : (dictMem kvs "name" && dictMem kvs "type" && dictMem kvs "ttl") = true)
    (hname : pstrip (pyStrVal (dictGet kvs "name")) = pys "@")
    (htype : pstrip (pupper (pyStrVal (dictGet kvs "type"))) = pys "A" ∨
      pstrip (pupper (pyStrVal (dictGet kvs "type"))) = pys "AAAA")
    (httl : ∃ n : Int,
      parsePyInt (pstrip (pyStrVal (dictGet kvs "ttl"))) = some n ∧ 0 < n) :
    (∃ r, validateRecord (Val.vdict kvs) = some r ∧ r.name = pys "@") ∧
    (∀ dn : PyStr, fqdnOfRecord dn (pys "@") = (dn ++ pys ".", pys "@") ∧
      fqdnOfRecord dn [] = (dn ++ pys ".", pys "@")) ∧
    (∀ kvs' : List (String × Val),
      pstrip (pyStrVal (dictGet kvs' "name")) = [] →
      validateRecord (Val.vdict kvs') = none) := by
  obtain ⟨n, hn, hpos⟩ := httl
  refine ⟨?_, ?_, ?_⟩
  · unfold validateRecord
    dsimp only
    rw [if_pos hmem, hname, hn]
    rw [show (pys "@").isEmpty = false from rfl]
    rcases htype with hty | hty
    · rw [hty]
      refine ⟨⟨pys "@", pys "A", n⟩, ?_, rfl⟩
      rw [if_neg (show ¬ ((!(pys "A" == pys "A" || pys "A" == pys "AAAA")) = true)
        from by decide)]
      dsimp only
      rw [if_neg (by omega : ¬ n ≤ 0)]
      rfl
    · rw [hty]
      refine ⟨⟨pys "@", pys "AAAA", n⟩, ?_, rfl⟩
      rw [if_neg (show ¬ ((!(pys "AAAA" == pys "A" || pys "AAAA" == pys "AAAA")) = true)
        from by decide)]
      dsimp only
      rw [if_neg (by omega : ¬ n ≤ 0)]
      rfl
  · intro dn
    exact ⟨rfl, rfl⟩
  · intro kvs' h
    unfold validateRecord
    dsimp only
    split
    · rw [h]
      rfl
    · rfl

/-- C2 amended witness: the concrete record `{name: "@", type: "a",
ttl: "300"}` is retained with name `@`, and the FQDN for `example.com` is
`example.com.`. -/
theorem C2_amended_witness :
    (∃ r, validateRecord (Val.vdict [("name", Val.vstr (pys "@")),
        ("type", Val.vstr (pys "a")), ("ttl", Val.vstr (pys "300"))]) = some r ∧
      r.name = pys "@") ∧
    (∀ dn : PyStr, fqdnOfRecord dn (pys "@") = (dn ++ pys ".", pys "@") ∧
      fqdnOfRecord dn [] = (dn ++ pys ".", pys "@")) ∧
    (∀ kvs' : List (String × Val),
      pstrip (pyStrVal (dictGet kvs' "name")) = [] →
      validateRecord (Val.vdict kvs') = none) :=
  C2_amended [("name", Val.vstr (pys "@")), ("type", Val.vstr (pys "a")),
      ("ttl", Val.vstr (pys "300"))]
    (by decide) (by decide) (Or.inl (by decide)) ⟨300, by decide, by decide⟩

/-- C7: validation is idempotent — re-running the domain/record filter on
its own output (written back in the dict shape the code builds on lines
161/164) reproduces it exactly, and re-normalizing an already-normalized
check interval or service URL is a no-op. -/
theorem C7_validation_idempotent :
    (∀ xs : List Val,
      validateDomains ((validateDomains xs).map domainToVal) = validateDomains xs) ∧
    (∀ v : Val, normInterval (Val.vint (normInterval v)) = normInterval v) ∧
    (∀ v : Val, normUrl (Val.vstr (normUrl v)) = normUrl v) :=
  ⟨validateDomains_idem, normInterval_idem, normUrl_idem⟩

/-- C5 counterexample: the domain `example.com` has two records — one with
all three keys, type normalizing to `A` and positive TTL `300` but a name
that strips to empty, and one with the invalid type `CNAME`.  Under the
claim's enumeration of malformedness the first record is valid, so the
domain should survive with that record; the code drops both records and
the whole domain. -/
theorem C5_counterexample :
    validateDomain (Val.vdict [("domain_name", Val.vstr (pys "example.com")),
      ("records", Val.vlist
        [Val.vdict [("name", Val.vstr (pys "")), ("type", Val.vstr (pys "A")),
          ("ttl", Val.vint 300)],
         Val.vdict [("name", Val.vstr (pys "www")),
          ("type", Val.vstr (pys "CNAME")), ("ttl", Val.vint 300)]])]) = none ∧
    (dictMem [("name", Val.vstr (pys "")), ("type", Val.vstr (pys "A")),
        ("ttl", Val.vint 300)] "name" &&
      dictMem [("name", Val.vstr (pys "")), ("type", Val.vstr (pys "A")),
        ("ttl", Val.vint 300)] "type" &&
      dictMem [("name", Val.vstr (pys "")), ("type", Val.vstr (pys "A")),
        ("ttl", Val.vint 300)] "ttl") = true ∧
    pstrip (pupper (pyStrVal (dictGet [("name", Val.vstr (pys "")),
      ("type", Val.vstr (pys "A")), ("ttl", Val.vint 300)] "type"))) = pys "A" ∧
    parsePyInt (pstrip (pyStrVal (dictGet [("name", Val.vstr (pys "")),
      ("type", Val.vstr (pys "A")), ("ttl", Val.vint 300)] "ttl"))) = some 300 := by
  refine ⟨by decide, rfl, by decide, ?_⟩
  show parsePyInt (pstrip (intRepr 300)) = some 300
  rw [pstrip_intRepr 300 (by omega), parsePyInt_intRepr 300 (by omega)]

/-- C5 amended: a record entry is dropped exactly when it is malformed in
the extended sense — not a dict with all of `name`/`type`/`ttl`, or name
stripping to empty, or type not normalizing to `A`/`AAAA`, or TTL not
parsing, or TTL non-positive; and for a structurally well-formed domain
the surviving records are exactly the per-record filter of its record list
(so siblings are retained independently), the domain being dropped exactly
when no record survives. -/
theorem C5_amended_filter_semantics :
    (∀ kvs : List (String × Val),
      validateRecord (Val.vdict kvs) = none ↔
        ((dictMem kvs "name" && dictMem kvs "type" && dictMem kvs "ttl") = false ∨
         pstrip (pyStrVal (dictGet kvs "name")) = [] ∨
         (pstrip (pupper (pyStrVal (dictGet kvs "type"))) ≠ pys "A" ∧
          pstrip (pupper (pyStrVal (dictGet kvs "type"))) ≠ pys "AAAA") ∨
         parsePyInt (pstrip (pyStrVal (dictGet kvs "ttl"))) = none ∨
         (∃ n : Int, parsePyInt (pstrip (pyStrVal (dictGet kvs "ttl"))) = some n ∧
          n ≤ 0))) ∧
    (∀ (kvs : List (String × Val)) (rs : List Val),
      (dictMem kvs "domain_name" && dictMem kvs "records") = true →
      dictGet kvs "records" = Val.vlist rs → rs ≠ [] →
      pstrip (pyStrVal (dictGet kvs "domain_name")) ≠ [] →
      validateDomain (Val.vdict kvs) =
        (if rs.filterMap validateRecord = [] then none
         else some ⟨pstrip (pyStrVal (dictGet kvs "domain_name")),
                    rs.filterMap validateRecord⟩)) := by
  constructor
  · intro kvs
    unfold validateRecord
    dsimp only
    by_cases hmem :
        (dictMem kvs "name" && dictMem kvs "type" && dictMem kvs "ttl") = true
    · rw [if_pos hmem]
      by_cases hname : pstrip (pyStrVal (dictGet kvs "name")) = []
      · rw [hname]
        exact iff_of_true rfl (Or.inr (Or.inl rfl))
      · rw [if_neg (show ¬ ((pstrip (pyStrVal (dictGet kvs "name"))).isEmpty = true)
          from fun hh => hname (by simpa using hh))]
        by_cases hty : (pstrip (pupper (pyStrVal (dictGet kvs "type"))) == pys "A" ||
            pstrip (pupper (pyStrVal (dictGet kvs "type"))) == pys "AAAA") = true
        · rw [hty, if_neg (show ¬ ((!true) = true) from by decide)]
          cases hp : parsePyInt (pstrip (pyStrVal (dictGet kvs "ttl"))) with
          | none => exact iff_of_true rfl (Or.inr (Or.inr (Or.inr (Or.inl rfl))))
          | some n =>
            dsimp only
            by_cases hn : n ≤ 0
            · rw [if_pos hn]
              exact iff_of_true rfl (Or.inr (Or.inr (Or.inr (Or.inr ⟨n, rfl, hn⟩))))
            · rw [if_neg hn]
              refine iff_of_false (by simp) ?_
              intro hdisj
              rcases hdisj with h1 | h2 | h3 | h4 | ⟨m, hm, hmle⟩
              · rw [hmem] at h1
                exact Bool.noConfusion h1
              · exact hname h2
              · rcases (show pstrip (pupper (pyStrVal (dictGet kvs "type"))) = pys "A" ∨
                    pstrip (pupper (pyStrVal (dictGet kvs "type"))) = pys "AAAA" from by
                      simpa using hty) with hA | hB
                · exact h3.1 hA
                · exact h3.2 hB
              · exact Option.noConfusion h4
              · obtain rfl := Option.some.inj hm
                omega
        · have hfalse : (pstrip (pupper (pyStrVal (dictGet kvs "type"))) == pys "A" ||
              pstrip (pupper (pyStrVal (dictGet kvs "type"))) == pys "AAAA") = false := by
            revert hty
            cases pstrip (pupper (pyStrVal (dictGet kvs "type"))) == pys "A" ||
              pstrip (pupper (pyStrVal (dictGet kvs "type"))) == pys "AAAA" <;> simp
          rw [hfalse, if_pos (show ((!false) = true) from by decide)]
          have hA : pstrip (pupper (pyStrVal (dictGet kvs "type"))) ≠ pys "A" := by
            intro he
            simp [he] at hfalse
          have hB : pstrip (pupper (pyStrVal (dictGet kvs "type"))) ≠ pys "AAAA" := by
            intro he
            simp [he] at hfalse
          exact iff_of_true rfl (Or.inr (Or.inr (Or.inl ⟨hA, hB⟩)))
    · have hf : (dictMem kvs "name" && dictMem kvs "type" && dictMem kvs "ttl")
          = false := by
        revert hmem
        cases dictMem kvs "name" && dictMem kvs "type" && dictMem kvs "ttl" <;> simp
      rw [if_neg hmem]
      exact iff_of_true rfl (Or.inl hf)
  · intro kvs rs hmem hrs hrne hdn
    unfold validateDomain
    dsimp only
    rw [hmem, if_neg (show ¬ ((!true) = true) from by decide), hrs]
    dsimp only
    rw [if_neg (show ¬ (rs.isEmpty = true) from fun hh => hrne (by simpa using hh))]
    rw [if_neg (show ¬ ((pstrip (pyStrVal (dictGet kvs "domain_name"))).isEmpty = true)
      from fun hh => hdn (by simpa using hh))]
    by_cases hfm : rs.filterMap validateRecord = []
    · rw [if_pos (show (rs.filterMap validateRecord).isEmpty = true from by
        simp [hfm]), if_pos hfm]
    · rw [if_neg (show ¬ ((rs.filterMap validateRecord).isEmpty = true) from
        fun hh => hfm (by simpa using hh)), if_neg hfm]

/-- C5 amended witness: the spec's own scenario — `example.com` with a
`CNAME` record (malformed) and an `"a"` record (valid, normalized to `A`);
the domain survives with exactly the filtered record list. -/
theorem C5_amended_filter_semantics_witness :
    validateDomain (Val.vdict [("domain_name", Val.vstr (pys "example.com")),
      ("records", Val.vlist
        [Val.vdict [("name", Val.vstr (pys "www")),
          ("type", Val.vstr (pys "CNAME")), ("ttl", Val.vstr (pys "300"))],
         Val.vdict [("name", Val.vstr (pys "www")),
          ("type", Val.vstr (pys "a")), ("ttl", Val.vstr (pys "300"))]])]) =
      (if [Val.vdict [("name", Val.vstr (pys "www")),
            ("type", Val.vstr (pys "CNAME")), ("ttl", Val.vstr (pys "300"))],
           Val.vdict [("name", Val.vstr (pys "www")),
            ("type", Val.vstr (pys "a")), ("ttl", Val.vstr (pys "300"))]].filterMap
            validateRecord = [] then none
       else some ⟨pys "example.com",
        [Val.vdict [("name", Val.vstr (pys "www")),
          ("type", Val.vstr (pys "CNAME")), ("ttl", Val.vstr (pys "300"))],
         Val.vdict [("name", Val.vstr (pys "www")),
          ("type", Val.vstr (pys "a")), ("ttl", Val.vstr (pys "300"))]].filterMap
          validateRecord⟩) :=
  C5_amended_filter_semantics.2
    [("domain_name", Val.vstr (pys "example.com")),
     ("records", Val.vlist
        [Val.vdict [("name", Val.vstr (pys "www")),
          ("type", Val.vstr (pys "CNAME")), ("ttl", Val.vstr (pys "300"))],
         Val.vdict [("name", Val.vstr (pys "www")),
          ("type", Val.vstr (pys "a")), ("ttl", Val.vstr (pys "300"))]])]
    [Val.vdict [("name", Val.vstr (pys "www")),
      ("type", Val.vstr (pys "CNAME")), ("ttl", Val.vstr (pys "300"))],
     Val.vdict [("name", Val.vstr (pys "www")),
      ("type", Val.vstr (pys "a")), ("ttl", Val.vstr (pys "300"))]]
    (by decide) rfl (List.cons_ne_nil _ _) (by decide)

theorem load_parsed_dict (kvs : List (String × Val)) (hk : kvs.isEmpty = false) :
    loadAndValidateConfig true (.parsed (Val.vdict kvs)) =
      (let kvs1 := if isVDict (dictGet kvs "global_settings") then kvs
                   else dictSet kvs "global_settings" (Val.vdict []);
       let gs := match dictGet kvs1 "global_settings" with
                 | Val.vdict g => g
                 | _ => [];
       let kvs2 := if isVList (dictGet kvs1 "domains") then kvs1
                   else dictSet kvs1 "domains" (Val.vlist []);
       let doms := match dictGet kvs2 "domains" with
                   | Val.vlist l => l
                   | _ => [];
       LoadOutcome.ok ⟨Val.vdict kvs2, dictGet gs "last_known_ip",
         normInterval (dictGet gs "check_interval_seconds"),
         normUrl (dictGet gs "public_ip_service_url"), validateDomains doms⟩) := by
  unfold loadAndValidateConfig
  dsimp only
  rw [show (Val.vdict kvs).pyTruthy = true from by simp [Val.pyTruthy, hk]]
  rfl

theorem cache_dict_eq (ip url : PyStr) (itv : Int) (kvs : List (String × Val))
    (hk : kvs.isEmpty = false) :
    cacheIpInYaml ip itv url (Val.vdict kvs) =
      (let kvs1 := if isVDict (dictGet kvs "global_settings") then kvs
                   else dictSet kvs "global_settings" (Val.vdict []);
       let g0 := match dictGet kvs1 "global_settings" with
                 | Val.vdict g => g
                 | _ => [];
       let g3 := dictSet (dictSet (dictSet g0 "last_known_ip" (Val.vstr ip))
         "check_interval_seconds" (Val.vint itv))
         "public_ip_service_url" (Val.vstr url);
       let kvs2 := dictSet kvs1 "global_settings" (Val.vdict g3);
       let kvs3 := if isVList (dictGet kvs2 "domains") then kvs2
                   else dictSet kvs2 "domains" (Val.vlist []);
       Val.vdict kvs3) := by
  unfold cacheIpInYaml
  dsimp only
  rw [show (Val.vdict kvs).pyTruthy = true from by simp [Val.pyTruthy, hk]]
  rfl

/-- C10: validation never rewrites the `domains` entry of the in-memory
document — when `domains` is present as a list, `load_and_validate_config`
returns a document with exactly the loaded `domains` value (and every key
other than `global_settings` unchanged) even though dropped entries are
missing from the returned active set; and `cache_ip_in_yaml` writes back
the original `domains` value, changing only the three `global_settings`
fields. -/
theorem C10_domains_never_mutated :
    (∀ (kvs : List (String × Val)) (l : List Val),
      dictGet kvs "domains" = Val.vlist l →
      ∃ r, loadAndValidateConfig true (.parsed (Val.vdict kvs)) = .ok r ∧
        docGet r.doc "domains" = Val.vlist l ∧
        (∀ k, k ≠ "global_settings" → docGet r.doc k = dictGet kvs k)) ∧
    (∀ (kvs g : List (String × Val)) (l : List Val) (ip url : PyStr) (itv : Int),
      dictGet kvs "global_settings" = Val.vdict g →
      dictGet kvs "domains" = Val.vlist l →
      ∃ g3, cacheIpInYaml ip itv url (Val.vdict kvs) =
          Val.vdict (dictSet kvs "global_settings" (Val.vdict g3)) ∧
        dictGet g3 "last_known_ip" = Val.vstr ip ∧
        dictGet g3 "check_interval_seconds" = Val.vint itv ∧
        dictGet g3 "public_ip_service_url" = Val.vstr url ∧
        (∀ k, k ≠ "last_known_ip" → k ≠ "check_interval_seconds" →
          k ≠ "public_ip_service_url" → dictGet g3 k = dictGet g k) ∧
        docGet (cacheIpInYaml ip itv url (Val.vdict kvs)) "domains" = Val.vlist l ∧
        (∀ k, k ≠ "global_settings" →
          docGet (cacheIpInYaml ip itv url (Val.vdict kvs)) k = dictGet kvs k)) := by
  constructor
  · intro kvs l hdom
    have hk : kvs.isEmpty = false := by
      cases kvs with
      | nil => exact Val.noConfusion hdom
      | cons p rest => rfl
    rw [load_parsed_dict kvs hk]
    dsimp only
    by_cases hgs : isVDict (dictGet kvs "global_settings") = true
    · rw [if_pos hgs]
      have hvl : isVList (dictGet kvs "domains") = true := by rw [hdom]; rfl
      rw [if_pos hvl]
      exact ⟨_, rfl, hdom, fun k _ => rfl⟩
    · rw [if_neg hgs]
      have hd1 : dictGet (dictSet kvs "global_settings" (Val.vdict [])) "domains" =
          Val.vlist l := by
        rw [dictGet_dictSet_ne _ _ _ _ (by decide)]
        exact hdom
      have hvl : isVList (dictGet (dictSet kvs "global_settings" (Val.vdict []))
          "domains") = true := by rw [hd1]; rfl
      rw [if_pos hvl]
      exact ⟨_, rfl, hd1, fun k hkne => dictGet_dictSet_ne _ _ _ _ hkne⟩
  · intro kvs g l ip url itv hgs hdom
    have hk : kvs.isEmpty = false := by
      cases kvs with
      | nil => exact Val.noConfusion hgs
      | cons p rest => rfl
    have hgsd : isVDict (dictGet kvs "global_settings") = true := by rw [hgs]; rfl
    have hcache : cacheIpInYaml ip itv url (Val.vdict kvs) =
        Val.vdict (dictSet kvs "global_settings" (Val.vdict
          (dictSet (dictSet (dictSet g "last_known_ip" (Val.vstr ip))
            "check_interval_seconds" (Val.vint itv))
            "public_ip_service_url" (Val.vstr url)))) := by
      rw [cache_dict_eq ip url itv kvs hk]
      dsimp only
      rw [if_pos hgsd, hgs]
      dsimp only
      have hd2 : dictGet (dictSet kvs "global_settings" (Val.vdict
          (dictSet (dictSet (dictSet g "last_known_ip" (Val.vstr ip))
            "check_interval_seconds" (Val.vint itv))
            "public_ip_service_url" (Val.vstr url)))) "domains" = Val.vlist l := by
        rw [dictGet_dictSet_ne _ _ _ _ (by decide)]
        exact hdom
      have hvl : isVList (dictGet (dictSet kvs "global_settings" (Val.vdict
          (dictSet (dictSet (dictSet g "last_known_ip" (Val.vstr ip))
            "check_interval_seconds" (Val.vint itv))
            "public_ip_service_url" (Val.vstr url)))) "domains") = true := by
        rw [hd2]; rfl
      rw [if_pos hvl]
    refine ⟨dictSet (dictSet (dictSet g "last_known_ip" (Val.vstr ip))
        "check_interval_seconds" (Val.vint itv))
        "public_ip_service_url" (Val.vstr url),
      hcache, ?_, ?_, ?_, ?_, ?_, ?_⟩
    · rw [dictGet_dictSet_ne _ _ _ _ (by decide),
        dictGet_dictSet_ne _ _ _ _ (by decide), dictGet_dictSet_self]
    · rw [dictGet_dictSet_ne _ _ _ _ (by decide), dictGet_dictSet_self]
    · rw [dictGet_dictSet_self]
    · intro k h1 h2 h3
      rw [dictGet_dictSet_ne _ _ _ _ h3, dictGet_dictSet_ne _ _ _ _ h2,
        dictGet_dictSet_ne _ _ _ _ h1]
    · rw [hcache]
      show dictGet (dictSet kvs "global_settings" _) "domains" = Val.vlist l
      rw [dictGet_dictSet_ne _ _ _ _ (by decide)]
      exact hdom
    · intro k hkne
      rw [hcache]
      show dictGet (dictSet kvs "global_settings" _) k = dictGet kvs k
      exact dictGet_dictSet_ne _ _ _ _ hkne

/-- C10 witness: a concrete document with an extra top-level key, an extra
`global_settings` field, and one (even invalid) domain entry: load keeps
the `domains` value verbatim and the save rewrites only the three
`global_settings` fields. -/
theorem C10_domains_never_mutated_witness :
    (∃ r, loadAndValidateConfig true (.parsed (Val.vdict
        [("global_settings", Val.vdict [("custom", Val.vint 1)]),
         ("domains", Val.vlist [Val.vint 7]), ("extra", Val.vstr (pys "e"))])) =
        .ok r ∧
      docGet r.doc "domains" = Val.vlist [Val.vint 7] ∧
      (∀ k, k ≠ "global_settings" → docGet r.doc k = dictGet
        [("global_settings", Val.vdict [("custom", Val.vint 1)]),
         ("domains", Val.vlist [Val.vint 7]), ("extra", Val.vstr (pys "e"))] k)) ∧
    (∃ g3, cacheIpInYaml (pys "203.0.113.9") 300 DEFAULT_PUBLIC_IP_SERVICE_URL
        (Val.vdict [("global_settings", Val.vdict [("custom", Val.vint 1)]),
          ("domains", Val.vlist [Val.vint 7]), ("extra", Val.vstr (pys "e"))]) =
        Val.vdict (dictSet [("global_settings", Val.vdict [("custom", Val.vint 1)]),
          ("domains", Val.vlist [Val.vint 7]), ("extra", Val.vstr (pys "e"))]
          "global_settings" (Val.vdict g3)) ∧
      dictGet g3 "last_known_ip" = Val.vstr (pys "203.0.113.9") ∧
      dictGet g3 "check_interval_seconds" = Val.vint 300 ∧
      dictGet g3 "public_ip_service_url" = Val.vstr DEFAULT_PUBLIC_IP_SERVICE_URL ∧
      (∀ k, k ≠ "last_known_ip" → k ≠ "check_interval_seconds" →
        k ≠ "public_ip_service_url" →
        dictGet g3 k = dictGet [("custom", Val.vint 1)] k) ∧
      docGet (cacheIpInYaml (pys "203.0.113.9") 300 DEFAULT_PUBLIC_IP_SERVICE_URL
        (Val.vdict [("global_settings", Val.vdict [("custom", Val.vint 1)]),
          ("domains", Val.vlist [Val.vint 7]), ("extra", Val.vstr (pys "e"))]))
        "domains" = Val.vlist [Val.vint 7] ∧
      (∀ k, k ≠ "global_settings" →
        docGet (cacheIpInYaml (pys "203.0.113.9") 300 DEFAULT_PUBLIC_IP_SERVICE_URL
          (Val.vdict [("global_settings", Val.vdict [("custom", Val.vint 1)]),
            ("domains", Val.vlist [Val.vint 7]), ("extra", Val.vstr (pys "e"))])) k =
          dictGet [("global_settings", Val.vdict [("custom", Val.vint 1)]),
            ("domains", Val.vlist [Val.vint 7]), ("extra", Val.vstr (pys "e"))] k)) :=
  ⟨C10_domains_never_mutated.1
      [("global_settings", Val.vdict [("custom", Val.vint 1)]),
       ("domains", Val.vlist [Val.vint 7]), ("extra", Val.vstr (pys "e"))]
      [Val.vint 7] rfl,
    C10_domains_never_mutated.2
      [("global_settings", Val.vdict [("custom", Val.vint 1)]),
       ("domains", Val.vlist [Val.vint 7]), ("extra", Val.vstr (pys "e"))]
      [("custom", Val.vint 1)] [Val.vint 7]
      (pys "203.0.113.9") DEFAULT_PUBLIC_IP_SERVICE_URL 300 rfl rfl⟩

end DDNS
